import Mathlib

/-!
Verification of the retry / circuit-breaker layer of the
azure-openai-langchain-wrapper repository.

The embedding translates:
* `ErrorHandler.handle`, `ErrorHandler.isRetryable`, `ErrorHandler.getRetryDelay`
  from `src/utils/errors.js` (its source is embedded in the repository README);
* `RetryWrapper.execute` from `src/utils/retry.js`;
* `RetryWrapper.executeWithCircuitBreaker` from the retry module embedded in
  `src/prompts/base-prompt.js`.

The retry loop itself is performed by the third-party `p-retry` npm package,
whose source is not in the repository; the loop and its backoff formula are
modelled from the spec (section 4.1) where marked below.  Everything else is a
direct translation of the JavaScript source.
-/

namespace Wrapper

/-- The `BaseError` class hierarchy of `src/utils/errors.js`: each constructor
is one of the error classes; `statusCode`-carrying classes keep their code,
`RateLimitError` keeps the `retryAfter` detail (in seconds, as the code
multiplies it by 1000 in `getRetryDelay`). -/
inductive HandledError where
  | base (message : String) (statusCode : Nat)
  | configuration (message : String)
  | azureOpenAI (message : String) (statusCode : Nat)
  | promptTemplate (message : String)
  | rateLimit (message : String) (retryAfter : Option Nat)
  | validation (message : String)
deriving DecidableEq, Repr

/-- The parts of a JavaScript `error.response` that `ErrorHandler.handle`
reads: `response.status`, the `retry-after` response header and
`response.data?.error?.message`. -/
structure HttpResponse where
  status : Nat
  retryAfterHeader : Option Nat
  dataErrorMessage : Option String
deriving DecidableEq, Repr

/-- A raw JavaScript error as seen by `ErrorHandler.handle`:
either already an instance of `BaseError`, an error carrying an HTTP
response (`error.response?.status` truthy), an error whose `name` is
`LangChainError`, or any other plain error (network failures, timeouts,
programming errors ...) with its `name` and `message`. -/
inductive RawError where
  | handled (e : HandledError)
  | withResponse (message : String) (resp : HttpResponse)
  | langChain (message : String)
  | plain (name : String) (message : String)
deriving DecidableEq, Repr

namespace ErrorHandler

/-- `ErrorHandler.handle` from `src/utils/errors.js`: `BaseError` instances
are returned unchanged; errors with an HTTP response map 429 to
`RateLimitError`, 401 and 404 to fixed `AzureOpenAIError`s and every other
status to `AzureOpenAIError` with that status; `LangChainError`s and all
remaining errors (network errors, timeouts, ...) become a plain `BaseError`
with status 500. -/
def handle : RawError → HandledError
  | .handled e => e
  | .withResponse message resp =>
      let msg := resp.dataErrorMessage.getD message
      if resp.status = 429 then .rateLimit msg resp.retryAfterHeader
      else if resp.status = 401 then .azureOpenAI "Authentication failed" 401
      else if resp.status = 404 then .azureOpenAI "Resource not found" 404
      else .azureOpenAI msg resp.status
  | .langChain message => .base ("LangChain Error: " ++ message) 500
  | .plain _ message => .base message 500

/-- `ErrorHandler.isRetryable` from `src/utils/errors.js`: true for any
`RateLimitError`, true for an `AzureOpenAIError` whose status code is in
[429, 500, 502, 503, 504], false for everything else. -/
def isRetryable : HandledError → Bool
  | .rateLimit _ _ => true
  | .azureOpenAI _ s => [429, 500, 502, 503, 504].contains s
  | _ => false

/-- `ErrorHandler.getRetryDelay` from `src/utils/errors.js`.  `rand` stands
for the value produced by `Math.random()` (so `0 ≤ rand < 1`); floating-point
rounding is not modelled, arithmetic is exact over `ℚ`. -/
def getRetryDelay (error : HandledError) (attempt : Nat) (baseDelay : ℚ)
    (rand : ℚ) : ℚ :=
  match error with
  | .rateLimit _ (some retryAfter) => (retryAfter : ℚ) * 1000
  | _ =>
      let delay : ℚ := min (baseDelay * 2 ^ (attempt - 1)) 30000
      let jitter : ℚ := rand * (1 / 10) * delay
      ((⌊delay + jitter⌋ : ℤ) : ℚ)

end ErrorHandler

/-- The retry options of `RetryWrapper.execute` / the `RetryOptions` class:
`retries` is the number of retries handed to `p-retry` (total attempts are
`retries + 1`); the configuration defaults of the source are
`retries = appConfig.maxRetryAttempts = 3`, `minTimeout =
appConfig.retryDelayMs = 1000`, `maxTimeout = 30000`, `factor = 2`,
`randomize = true`. -/
structure RetryOptions where
  retries : Nat
  minTimeout : ℚ
  maxTimeout : ℚ
  factor : ℚ
  randomize : Bool
deriving DecidableEq, Repr

/-- The maxAttempts notion of the spec: total number of invocations permitted, which for
the p-retry options of the source is `retries + 1`. -/
def RetryOptions.maxAttempts (o : RetryOptions) : Nat :=
  o.retries + 1

/-- Modelled from the spec: the backoff delay that the third-party `p-retry`
package (not part of this repository) waits after failed attempt `attempt`
when `randomize` is off — `min(maxDelayMs, baseDelayMs *
backoffFactor^(attempt-1))` (spec section 4.1 step 6). -/
def backoffDelay (o : RetryOptions) (attempt : Nat) : ℚ :=
  min o.maxTimeout (o.minTimeout * o.factor ^ (attempt - 1))

/-- Outcome of one `RetryWrapper.execute` call: success; a non-retryable
error thrown via `pRetry.AbortError` after `attempts` invocations; the last
handled error rethrown once retries are exhausted (it carries
`attemptNumber = attempts`, the `RetryExhaustedError.attempts` of the spec); or,
when retry is disabled, the raw error of the single `fn()` call, propagated
without passing through `ErrorHandler.handle`. -/
inductive ExecOutcome (α : Type) where
  | success (value : α)
  | fatalFailure (e : HandledError) (attempts : Nat)
  | retryExhausted (e : HandledError) (attempts : Nat)
  | rawFailure (e : RawError)
deriving DecidableEq, Repr

/-- Whether the outcome is a success (the `try` block of
`executeWithCircuitBreaker` reaching its `return`). -/
def ExecOutcome.isSuccess {α : Type} : ExecOutcome α → Bool
  | .success _ => true
  | _ => false

/-- Result of one `RetryWrapper.execute` call together with the number of
times the wrapped operation `fn` was invoked and the list of backoff delays
slept between attempts. -/
structure ExecResult (α : Type) where
  outcome : ExecOutcome α
  invocations : Nat
  delays : List ℚ
deriving DecidableEq, Repr

/-- Modelled from the spec where it concerns the loop itself: the `p-retry`
retry loop (third-party, not in the repository) driving the repository and its
wrapped function from `src/utils/retry.js`: each attempt calls
`op attempt`; on success the value is returned; on failure the error is
passed through `ErrorHandler.handle`, a non-retryable handled error aborts
immediately (`pRetry.AbortError`), a retryable one is rethrown and, while
attempts remain, `p-retry` sleeps the backoff delay and retries.
`remaining` is the number of attempts still allowed including the current
one; the `remaining = 0` case is unreachable since `execute` starts the loop
with `retries + 1 ≥ 1`. -/
def execGo {α : Type} (op : Nat → Except RawError α) (o : RetryOptions) :
    Nat → Nat → ExecResult α
  | _, 0 => ⟨.retryExhausted (.base "unreachable" 0) 0, 0, []⟩
  | attempt, r + 1 =>
      match op attempt with
      | .ok v => ⟨.success v, 1, []⟩
      | .error raw =>
          let e := ErrorHandler.handle raw
          if ErrorHandler.isRetryable e then
            match r with
            | 0 => ⟨.retryExhausted e attempt, 1, []⟩
            | r + 1 =>
                let rest := execGo op o (attempt + 1) (r + 1)
                ⟨rest.outcome, rest.invocations + 1,
                  backoffDelay o attempt :: rest.delays⟩
          else ⟨.fatalFailure e attempt, 1, []⟩

namespace RetryWrapper

/-- `RetryWrapper.execute` from `src/utils/retry.js`: when
`appConfig.enableRetry` is false the function is executed exactly once and
its result (or raw error) is returned directly; otherwise the `p-retry` loop
runs with up to `retries + 1` attempts starting at attempt number 1. -/
def execute {α : Type} (enableRetry : Bool) (op : Nat → Except RawError α)
    (o : RetryOptions) : ExecResult α :=
  if enableRetry then execGo op o 1 (o.retries + 1)
  else
    match op 1 with
    | .ok v => ⟨.success v, 1, []⟩
    | .error raw => ⟨.rawFailure raw, 1, []⟩

end RetryWrapper

/-- The three states of the breaker object of
`RetryWrapper.executeWithCircuitBreaker` (the strings `closed`, `open` and
`half-open`); the constructor `opened` names the `open` string. -/
inductive BreakerState where
  | closed
  | opened
  | halfOpen
deriving DecidableEq, Repr

/-- The mutable breaker record `this.circuitBreaker` of
`RetryWrapper.executeWithCircuitBreaker`, holding `failures` (starting 0),
`lastFailureTime` (starting null) and `state` (starting closed).  Timestamps are milliseconds as
from `Date.now()`. -/
structure CircuitBreaker where
  failures : Nat
  lastFailureTime : Option Nat
  state : BreakerState
deriving DecidableEq, Repr

/-- The breaker as first created: zero failures, no failure time, closed. -/
def CircuitBreaker.initial : CircuitBreaker :=
  ⟨0, none, .closed⟩

/-- The admission check at the top of `executeWithCircuitBreaker`: when the
state is `open`, compute `timeSinceLastFailure = Date.now() -
breaker.lastFailureTime` (JavaScript coerces a `null` time to 0) and move to
`half-open` when it exceeds `resetTimeout`, otherwise reject the call by
throwing the circuit-breaker-is-open Error; any other state admits the call
unchanged.  Returns the updated breaker and whether the call was admitted. -/
def breakerAdmit (resetTimeout : Nat) (br : CircuitBreaker) (now : Nat) :
    CircuitBreaker × Bool :=
  match br.state with
  | .opened =>
      if resetTimeout < now - (br.lastFailureTime.getD 0)
      then (⟨br.failures, br.lastFailureTime, .halfOpen⟩, true)
      else (br, false)
  | _ => (br, true)

/-- The bookkeeping after an admitted call in `executeWithCircuitBreaker`:
on success, only a `half-open` breaker is reset (state `closed`,
failures 0) — in any other state nothing changes; on failure, `failures` is
incremented, `lastFailureTime` is set to the current time and the state
becomes `open` once `failures` reaches `threshold`. -/
def breakerSettle (threshold : Nat) (br : CircuitBreaker) (now : Nat)
    (succeeded : Bool) : CircuitBreaker :=
  if succeeded then
    match br.state with
    | .halfOpen => ⟨0, br.lastFailureTime, .closed⟩
    | _ => br
  else
    ⟨br.failures + 1, some now,
      if threshold ≤ br.failures + 1 then .opened else br.state⟩

/-- Outcome of one `executeWithCircuitBreaker` call: either the rejection
circuit-breaker-is-open Error thrown without invoking anything, or the
outcome of the delegated `RetryWrapper.execute`. -/
inductive BreakerOutcome (α : Type) where
  | circuitOpen
  | result (r : ExecOutcome α)
deriving DecidableEq, Repr

/-- Result of one `executeWithCircuitBreaker` call: the breaker state after
the call, the outcome, and how many times the wrapped operation was
invoked during the call (0 when the call is rejected). -/
structure BreakerCallResult (α : Type) where
  breaker : CircuitBreaker
  outcome : BreakerOutcome α
  invocations : Nat
deriving DecidableEq, Repr

namespace RetryWrapper

/-- `RetryWrapper.executeWithCircuitBreaker` from the retry module embedded
in `src/prompts/base-prompt.js`, one logical call at time `now`:
run the admission check; a rejected call throws without invoking the
operation; an admitted call delegates to `RetryWrapper.execute` and then
performs the success / failure bookkeeping on the shared breaker.
`threshold` and `resetTimeout` are the options of the source (defaults 5 and
30000). -/
def executeWithCircuitBreaker {α : Type} (threshold resetTimeout : Nat)
    (enableRetry : Bool) (op : Nat → Except RawError α) (o : RetryOptions)
    (br : CircuitBreaker) (now : Nat) : BreakerCallResult α :=
  let p := breakerAdmit resetTimeout br now
  if p.2 then
    let r := execute enableRetry op o
    ⟨breakerSettle threshold p.1 now r.outcome.isSuccess,
      .result r.outcome, r.invocations⟩
  else ⟨p.1, .circuitOpen, 0⟩

end RetryWrapper

/-- A sequence of logical calls through one shared breaker: each list entry
is the `Date.now()` timestamp of the call and its operation; returns the final
breaker together with the total number of operation invocations across the
whole sequence. -/
def runBreakerCalls {α : Type} (threshold resetTimeout : Nat)
    (enableRetry : Bool) (o : RetryOptions) :
    CircuitBreaker → List (Nat × (Nat → Except RawError α)) →
      CircuitBreaker × Nat
  | br, [] => (br, 0)
  | br, (now, op) :: rest =>
      let r := RetryWrapper.executeWithCircuitBreaker threshold resetTimeout
        enableRetry op o br now
      let q := runBreakerCalls threshold resetTimeout enableRetry o
        r.breaker rest
      (q.1, r.invocations + q.2)

/-- A concrete transient failure: an HTTP 500 response, which
`ErrorHandler.handle` turns into `AzureOpenAIError` with status 500
(retryable). -/
def rawServerError : RawError :=
  .withResponse "boom" ⟨500, none, none⟩

/-- A concrete network failure: a plain error with no HTTP response (as a
connection reset produces), which `ErrorHandler.handle` turns into a plain
`BaseError` with status 500 (not retryable). -/
def rawNetworkError : RawError :=
  .plain "Error" "connect ECONNRESET"


/-- Helper: one retry-loop step on a successful invocation. -/
lemma execGo_ok {α : Type} (op : Nat → Except RawError α) (o : RetryOptions)
    (attempt r : Nat) (v : α) (h : op attempt = .ok v) :
    execGo op o attempt (r + 1) = ⟨.success v, 1, []⟩ := by
  rw [execGo.eq_2 op o attempt r, h]

/-- Helper: one retry-loop step on a non-retryable failure. -/
lemma execGo_fatal {α : Type} (op : Nat → Except RawError α) (o : RetryOptions)
    (attempt r : Nat) (raw : RawError) (h : op attempt = .error raw)
    (hf : ErrorHandler.isRetryable (ErrorHandler.handle raw) = false) :
    execGo op o attempt (r + 1)
      = ⟨.fatalFailure (ErrorHandler.handle raw) attempt, 1, []⟩ := by
  rw [execGo.eq_2 op o attempt r, h]
  simp [hf]

/-- Helper: one retry-loop step on a retryable failure with no retry left. -/
lemma execGo_last {α : Type} (op : Nat → Except RawError α) (o : RetryOptions)
    (attempt : Nat) (raw : RawError) (h : op attempt = .error raw)
    (ht : ErrorHandler.isRetryable (ErrorHandler.handle raw) = true) :
    execGo op o attempt 1
      = ⟨.retryExhausted (ErrorHandler.handle raw) attempt, 1, []⟩ := by
  rw [execGo.eq_2 op o attempt 0, h]
  simp [ht]

/-- Helper: one retry-loop step on a retryable failure with retries left. -/
lemma execGo_step {α : Type} (op : Nat → Except RawError α) (o : RetryOptions)
    (attempt r : Nat) (raw : RawError) (h : op attempt = .error raw)
    (ht : ErrorHandler.isRetryable (ErrorHandler.handle raw) = true) :
    execGo op o attempt (r + 2)
      = ⟨(execGo op o (attempt + 1) (r + 1)).outcome,
          (execGo op o (attempt + 1) (r + 1)).invocations + 1,
          backoffDelay o attempt :: (execGo op o (attempt + 1) (r + 1)).delays⟩ := by
  rw [execGo.eq_2 op o attempt (r + 1), h]
  simp [ht]

/-- Helper: when every invocation fails with a retryable-classified error, the
retry loop started at `attempt` with `r + 1` attempts remaining performs
exactly `r + 1` invocations and ends rethrowing the last handled error with
attempt number `attempt + r`. -/
lemma execGo_retryable_forever {α : Type} (op : Nat → Except RawError α)
    (o : RetryOptions) (raw : Nat → RawError)
    (hop : ∀ k, op k = .error (raw k))
    (hret : ∀ k, ErrorHandler.isRetryable (ErrorHandler.handle (raw k)) = true) :
    ∀ r attempt, (execGo op o attempt (r + 1)).invocations = r + 1 ∧
      (execGo op o attempt (r + 1)).outcome
        = .retryExhausted (ErrorHandler.handle (raw (attempt + r))) (attempt + r) := by
  intro r
  induction r with
  | zero =>
      intro attempt
      rw [execGo_last op o attempt (raw attempt) (hop attempt) (hret attempt)]
      simp
  | succ r ih =>
      intro attempt
      obtain ⟨h1, h2⟩ := ih (attempt + 1)
      have e : attempt + 1 + r = attempt + (r + 1) := by omega
      rw [e] at h2
      rw [execGo_step op o attempt r (raw attempt) (hop attempt) (hret attempt)]
      exact ⟨by rw [h1], h2⟩

/-- Helper: an admitted retry loop with at least one attempt remaining always
invokes the operation at least once. -/
lemma execGo_invocations_pos {α : Type} (op : Nat → Except RawError α)
    (o : RetryOptions) (attempt r : Nat) :
    1 ≤ (execGo op o attempt (r + 1)).invocations := by
  cases h : op attempt with
  | ok v => rw [execGo_ok op o attempt r v h]
  | error raw =>
      cases hr : ErrorHandler.isRetryable (ErrorHandler.handle raw) with
      | false => rw [execGo_fatal op o attempt r raw h hr]
      | true =>
          cases r with
          | zero => rw [execGo_last op o attempt raw h hr]
          | succ r =>
              rw [execGo_step op o attempt r raw h hr]
              simp

/-- Helper: flooring an integer delay with a sub-unit positive jitter of at
most a tenth of the delay stays within the claimed band. -/
lemma floor_jitter_bounds (Dn : Nat) (rand : ℚ)
    (hr0 : 0 ≤ rand) (hr1 : rand < 1) :
    (Dn : ℚ) ≤ ((⌊(Dn : ℚ) + rand * (1 / 10) * (Dn : ℚ)⌋ : ℤ) : ℚ) ∧
    ((⌊(Dn : ℚ) + rand * (1 / 10) * (Dn : ℚ)⌋ : ℤ) : ℚ)
      ≤ (Dn : ℚ) + (Dn : ℚ) / 10 := by
  have hD : (0 : ℚ) ≤ (Dn : ℚ) := by positivity
  have hj0 : (0 : ℚ) ≤ rand * (1 / 10) * (Dn : ℚ) := by positivity
  have hj1 : rand * (1 / 10) * (Dn : ℚ) ≤ (Dn : ℚ) / 10 := by nlinarith
  constructor
  · have : ((Dn : ℤ) : ℚ) ≤ (Dn : ℚ) + rand * (1 / 10) * (Dn : ℚ) := by
      push_cast; linarith
    exact_mod_cast Int.le_floor.mpr this
  · have hfl : ((⌊(Dn : ℚ) + rand * (1 / 10) * (Dn : ℚ)⌋ : ℤ) : ℚ)
        ≤ (Dn : ℚ) + rand * (1 / 10) * (Dn : ℚ) := Int.floor_le _
    linarith

/-- Claim C1: for every retry policy with maxAttempts = N (N at least 1) and
every operation failing with a retryable-classified error on every
invocation, `RetryWrapper.execute` invokes the operation exactly N times and
then fails rethrowing the last retryable error with attempt count N (the
RetryExhaustedError of the spec, with attempts = N). -/
theorem C1_exhausts_all_attempts {α : Type} (N : Nat) (hN : 1 ≤ N)
    (o : RetryOptions) (hA : o.maxAttempts = N)
    (op : Nat → Except RawError α) (raw : Nat → RawError)
    (hop : ∀ k, op k = .error (raw k))
    (hret : ∀ k, ErrorHandler.isRetryable (ErrorHandler.handle (raw k)) = true) :
    (RetryWrapper.execute true op o).invocations = N ∧
    (RetryWrapper.execute true op o).outcome
      = .retryExhausted (ErrorHandler.handle (raw N)) N := by
  have hr : o.retries = N - 1 := by
    have h := hA
    unfold RetryOptions.maxAttempts at h
    omega
  obtain ⟨h1, h2⟩ := execGo_retryable_forever op o raw hop hret (N - 1) 1
  have e1 : 1 + (N - 1) = N := by omega
  rw [e1] at h2
  constructor
  · show (if true then execGo op o 1 (o.retries + 1) else _).invocations = N
    rw [if_pos rfl, hr, h1]
    omega
  · show (if true then execGo op o 1 (o.retries + 1) else _).outcome = _
    rw [if_pos rfl, hr]
    exact h2

/-- Witness for C1: three invocations of an operation that always fails with
an HTTP 500 response, under a policy with maxAttempts 3 (retries 2). -/
theorem C1_exhausts_all_attempts_witness :
    (RetryWrapper.execute true (fun _ => .error rawServerError)
        ⟨2, 1000, 30000, 2, false⟩ : ExecResult Nat).invocations = 3 ∧
    (RetryWrapper.execute true (fun _ => .error rawServerError)
        ⟨2, 1000, 30000, 2, false⟩ : ExecResult Nat).outcome
      = .retryExhausted (ErrorHandler.handle rawServerError) 3 :=
  C1_exhausts_all_attempts 3 (by norm_num) ⟨2, 1000, 30000, 2, false⟩ rfl
    (fun _ => .error rawServerError) (fun _ => rawServerError)
    (fun _ => rfl) (fun _ => rfl)

/-- Claim C2 counterexample: a network error (a connection reset carrying no
HTTP response) is classified NOT retryable — `ErrorHandler.handle` maps it to
a plain `BaseError` with status 500, which `ErrorHandler.isRetryable`
rejects — so `RetryWrapper.execute` aborts after a single invocation with a
fatal outcome instead of backing off and retrying, refuting the claim that
network errors and timeouts are retryable under the default classifier. -/
theorem C2_counterexample :
    ErrorHandler.isRetryable (ErrorHandler.handle rawNetworkError) = false ∧
    (RetryWrapper.execute true (fun _ => .error rawNetworkError)
        ⟨2, 1000, 30000, 2, false⟩ : ExecResult Nat).invocations = 1 ∧
    (RetryWrapper.execute true (fun _ => .error rawNetworkError)
        ⟨2, 1000, 30000, 2, false⟩ : ExecResult Nat).outcome
      = .fatalFailure (.base "connect ECONNRESET" 500) 1 := by
  have hx : (RetryWrapper.execute true (fun _ => .error rawNetworkError)
      ⟨2, 1000, 30000, 2, false⟩ : ExecResult Nat)
      = ⟨.fatalFailure (ErrorHandler.handle rawNetworkError) 1, 1, []⟩ := by
    rw [show (RetryWrapper.execute true (fun _ => .error rawNetworkError)
        ⟨2, 1000, 30000, 2, false⟩ : ExecResult Nat)
        = execGo (fun _ => .error rawNetworkError)
            ⟨2, 1000, 30000, 2, false⟩ 1 3 from rfl]
    exact execGo_fatal _ _ 1 2 rawNetworkError rfl (by decide)
  refine ⟨by decide, ?_, ?_⟩ <;> (rw [hx]; try rfl)

/-- Claim C2 (amended): the default classifier marks retryable exactly the
RateLimitError instances (429-style) and the AzureOpenAIError instances with
status 429, 500, 502, 503 or 504; every other handled error — in particular
any plain error without an HTTP response, which is how network errors and
timeouts arrive and which `ErrorHandler.handle` maps to `BaseError` with
status 500 — is fatal and never retried.  Validation and auth errors are
likewise fatal. -/
theorem C2_default_classifier (e : HandledError) (name msg : String) :
    (ErrorHandler.isRetryable e = true ↔
      ((∃ m ra, e = .rateLimit m ra) ∨
       (∃ m s, e = .azureOpenAI m s ∧
         (s = 429 ∨ s = 500 ∨ s = 502 ∨ s = 503 ∨ s = 504)))) ∧
    ErrorHandler.handle (.plain name msg) = .base msg 500 ∧
    ErrorHandler.isRetryable (ErrorHandler.handle (.plain name msg)) = false ∧
    ErrorHandler.isRetryable (.validation msg) = false ∧
    ErrorHandler.isRetryable (.azureOpenAI msg 401) = false := by
  refine ⟨?_, rfl, rfl, rfl, rfl⟩
  cases e <;> simp [ErrorHandler.isRetryable]
  constructor
  · intro h
    exact ⟨_, _, ⟨rfl, rfl⟩, h⟩
  · rintro ⟨m, t, ⟨-, rfl⟩, h⟩
    exact h

/-- Witness for C2 (amended): instantiated at a 501-status AzureOpenAIError
and a timeout-flavoured plain error. -/
theorem C2_default_classifier_witness :
    (ErrorHandler.isRetryable (.azureOpenAI "bad gateway-ish" 501) = true ↔
      ((∃ m ra, (HandledError.azureOpenAI "bad gateway-ish" 501)
          = .rateLimit m ra) ∨
       (∃ m s, (HandledError.azureOpenAI "bad gateway-ish" 501)
          = .azureOpenAI m s ∧
         (s = 429 ∨ s = 500 ∨ s = 502 ∨ s = 503 ∨ s = 504)))) ∧
    ErrorHandler.handle (.plain "TimeoutError" "request timed out")
      = .base "request timed out" 500 ∧
    ErrorHandler.isRetryable
        (ErrorHandler.handle (.plain "TimeoutError" "request timed out"))
      = false ∧
    ErrorHandler.isRetryable (.validation "request timed out") = false ∧
    ErrorHandler.isRetryable (.azureOpenAI "request timed out" 401) = false :=
  C2_default_classifier (.azureOpenAI "bad gateway-ish" 501)
    "TimeoutError" "request timed out"


/-- Claim C3: a call made while the breaker state is Open and the cooldown
has not yet elapsed (strictly less than `resetTimeout` since the recorded
failure time) is rejected with the circuit-open error, the operation is not
invoked and the breaker is unchanged; and concretely, with failure threshold
3, after 3 consecutive failed calls the state is Open and a 4th call inside
the cooldown leaves the total operation-invocation count at 3. -/
theorem C3_open_rejects_without_invoking {α : Type}
    (threshold resetTimeout : Nat) (enableRetry : Bool)
    (op : Nat → Except RawError α) (o : RetryOptions)
    (br : CircuitBreaker) (now t : Nat)
    (hs : br.state = .opened) (ht : br.lastFailureTime = some t)
    (hle : t ≤ now) (hcool : now - t < resetTimeout) :
    RetryWrapper.executeWithCircuitBreaker threshold resetTimeout enableRetry
        op o br now
      = ⟨br, .circuitOpen, 0⟩ ∧
    runBreakerCalls 3 30000 true ⟨0, 1000, 30000, 2, false⟩
        CircuitBreaker.initial
        [(0, fun _ => (.error rawNetworkError : Except RawError Nat)),
         (0, fun _ => .error rawNetworkError),
         (0, fun _ => .error rawNetworkError),
         (100, fun _ => .error rawNetworkError)]
      = (⟨3, some 0, .opened⟩, 3) := by
  constructor
  · have hpass : breakerAdmit resetTimeout br now = (br, false) := by
      unfold breakerAdmit
      rw [hs, ht]
      simp only [Option.getD_some]
      rw [if_neg (by omega)]
    unfold RetryWrapper.executeWithCircuitBreaker
    rw [hpass]
    simp
  · decide

/-- Witness for C3: a breaker opened at time 0 with resetTimeout 30000
rejects a call at time 100 without invoking the (would-succeed)
operation. -/
theorem C3_open_rejects_without_invoking_witness :
    RetryWrapper.executeWithCircuitBreaker 3 30000 true
        (fun _ => (.ok 0 : Except RawError Nat)) ⟨0, 1000, 30000, 2, false⟩
        ⟨3, some 0, .opened⟩ 100
      = ⟨⟨3, some 0, .opened⟩, .circuitOpen, 0⟩ ∧
    runBreakerCalls 3 30000 true ⟨0, 1000, 30000, 2, false⟩
        CircuitBreaker.initial
        [(0, fun _ => (.error rawNetworkError : Except RawError Nat)),
         (0, fun _ => .error rawNetworkError),
         (0, fun _ => .error rawNetworkError),
         (100, fun _ => .error rawNetworkError)]
      = (⟨3, some 0, .opened⟩, 3) :=
  C3_open_rejects_without_invoking 3 30000 true
    (fun _ => (.ok 0 : Except RawError Nat)) ⟨0, 1000, 30000, 2, false⟩
    ⟨3, some 0, .opened⟩ 100 0 rfl rfl (by omega) (by omega)

/-- Claim C4 counterexample: a call admitted while the state is Closed with
2 recorded consecutive failures succeeds, yet `failures` stays at 2 — the
code resets the counter only on a success in the half-open state — refuting
the claim that every successful delegated execution resets
consecutiveFailures to 0. -/
theorem C4_counterexample :
    (RetryWrapper.executeWithCircuitBreaker 3 30000 true
        (fun _ => (.ok 0 : Except RawError Nat)) ⟨0, 1000, 30000, 2, false⟩
        ⟨2, some 5, .closed⟩ 100).outcome
      = .result (.success 0) ∧
    (RetryWrapper.executeWithCircuitBreaker 3 30000 true
        (fun _ => (.ok 0 : Except RawError Nat)) ⟨0, 1000, 30000, 2, false⟩
        ⟨2, some 5, .closed⟩ 100).breaker.failures = 2 := by
  decide

/-- Claim C4 (amended): for a call admitted while Closed or as the HalfOpen
probe — a success during HalfOpen resets `failures` to 0 and closes the
circuit, while a success during Closed leaves the breaker (including any
nonzero `failures`) entirely unchanged; a failure of the delegated execution
increments `failures` by exactly one (one breaker credit per logical call),
records the failure time, moves the state to Open exactly when the new count
reaches `threshold`, and otherwise leaves the state as it was. -/
theorem C4_settlement {α : Type} (threshold resetTimeout : Nat)
    (op : Nat → Except RawError α) (o : RetryOptions)
    (br : CircuitBreaker) (now : Nat)
    (hadm : br.state = .closed ∨ br.state = .halfOpen) :
    (br.state = .closed →
      (RetryWrapper.execute true op o).outcome.isSuccess = true →
      (RetryWrapper.executeWithCircuitBreaker threshold resetTimeout true
          op o br now).breaker = br) ∧
    (br.state = .halfOpen →
      (RetryWrapper.execute true op o).outcome.isSuccess = true →
      (RetryWrapper.executeWithCircuitBreaker threshold resetTimeout true
          op o br now).breaker = ⟨0, br.lastFailureTime, .closed⟩) ∧
    ((RetryWrapper.execute true op o).outcome.isSuccess = false →
      (RetryWrapper.executeWithCircuitBreaker threshold resetTimeout true
          op o br now).breaker
        = ⟨br.failures + 1, some now,
            if threshold ≤ br.failures + 1 then .opened else br.state⟩) := by
  have hpass : breakerAdmit resetTimeout br now = (br, true) := by
    rcases hadm with h | h <;> (unfold breakerAdmit; rw [h])
  refine ⟨?_, ?_, ?_⟩
  · intro hc hsucc
    unfold RetryWrapper.executeWithCircuitBreaker
    rw [hpass]
    simp only [if_pos rfl]
    unfold breakerSettle
    rw [hsucc, if_pos rfl, hc]
    simp
  · intro hh hsucc
    unfold RetryWrapper.executeWithCircuitBreaker
    rw [hpass]
    simp only [if_pos rfl]
    unfold breakerSettle
    rw [hsucc, if_pos rfl, hh]
    simp
  · intro hfail
    unfold RetryWrapper.executeWithCircuitBreaker
    rw [hpass]
    simp only [if_pos rfl]
    unfold breakerSettle
    rw [hfail]
    simp

/-- Witness for C4 (amended): a successful HalfOpen probe resets a breaker
with 3 failures to the closed state with 0 failures. -/
theorem C4_settlement_witness :
    (RetryWrapper.executeWithCircuitBreaker 3 30000 true
        (fun _ => (.ok 0 : Except RawError Nat)) ⟨0, 1000, 30000, 2, false⟩
        ⟨3, some 0, .halfOpen⟩ 40000).breaker
      = ⟨0, some 0, .closed⟩ :=
  (C4_settlement 3 30000 (fun _ => (.ok 0 : Except RawError Nat))
      ⟨0, 1000, 30000, 2, false⟩ ⟨3, some 0, .halfOpen⟩ 40000
      (Or.inr rfl)).2.1 rfl rfl

/-- Claim C5 counterexample: with the elapsed time since the failure that
opened the circuit exactly equal to `resetTimeout` (30000ms opened at 0,
call at 30000) the claim admits the call as the HalfOpen probe, but the code
uses a strict comparison and still rejects it with the circuit-open error,
leaving the state Open. -/
theorem C5_counterexample :
    RetryWrapper.executeWithCircuitBreaker 3 30000 true
        (fun _ => (.ok 0 : Except RawError Nat)) ⟨0, 1000, 30000, 2, false⟩
        ⟨3, some 0, .opened⟩ 30000
      = ⟨⟨3, some 0, .opened⟩, .circuitOpen, 0⟩ := by
  decide

/-- Claim C5 (amended): whenever the state is Open and the elapsed time
since the recorded failure time is strictly more than `resetTimeout`, the
next call moves the breaker to HalfOpen and is admitted as the probe, and if
the probe operation succeeds (here: on its first attempt) the call returns
success and the breaker ends Closed with `failures = 0`. -/
theorem C5_halfopen_probe_closes {α : Type} (threshold resetTimeout : Nat)
    (op : Nat → Except RawError α) (o : RetryOptions) (br : CircuitBreaker)
    (now t : Nat) (v : α)
    (hs : br.state = .opened) (ht : br.lastFailureTime = some t)
    (hcool : resetTimeout < now - t) (hop : op 1 = .ok v) :
    breakerAdmit resetTimeout br now
      = (⟨br.failures, some t, .halfOpen⟩, true) ∧
    RetryWrapper.executeWithCircuitBreaker threshold resetTimeout true
        op o br now
      = ⟨⟨0, some t, .closed⟩, .result (.success v), 1⟩ := by
  have hpass : breakerAdmit resetTimeout br now
      = (⟨br.failures, some t, .halfOpen⟩, true) := by
    unfold breakerAdmit
    rw [hs, ht]
    simp only [Option.getD_some]
    rw [if_pos hcool]
  refine ⟨hpass, ?_⟩
  have hexec : RetryWrapper.execute true op o = ⟨.success v, 1, []⟩ := by
    show execGo op o 1 (o.retries + 1) = _
    exact execGo_ok op o 1 o.retries v hop
  unfold RetryWrapper.executeWithCircuitBreaker
  rw [hpass]
  simp only [if_pos rfl]
  rw [hexec]
  rfl

/-- Witness for C5 (amended): a breaker opened at time 0 admits the call at
time 30001 as the probe and, the probe succeeding, ends Closed with zero
failures. -/
theorem C5_halfopen_probe_closes_witness :
    breakerAdmit 30000 ⟨3, some 0, .opened⟩ 30001
      = (⟨3, some 0, .halfOpen⟩, true) ∧
    RetryWrapper.executeWithCircuitBreaker 3 30000 true
        (fun _ => (.ok 0 : Except RawError Nat)) ⟨0, 1000, 30000, 2, false⟩
        ⟨3, some 0, .opened⟩ 30001
      = ⟨⟨0, some 0, .closed⟩, .result (.success 0), 1⟩ :=
  C5_halfopen_probe_closes 3 30000 (fun _ => (.ok 0 : Except RawError Nat))
    ⟨0, 1000, 30000, 2, false⟩ ⟨3, some 0, .opened⟩ 30001 0 0
    rfl rfl (by omega) rfl


/-- Claim C6: with jitter disabled the backoff delay after attempt k is
min(maxDelayMs, baseDelayMs * factor^(k-1)); concretely for baseDelayMs 100,
factor 2, maxDelayMs 2000 a permanently failing retryable operation sleeps
[100, 200, 400, 800, 1600] before the retries after attempts 1..5, and the
delay is capped at 2000 for every attempt from 6 on. -/
theorem C6_backoff_delay_sequence :
    (RetryWrapper.execute true (fun _ => .error rawServerError)
        ⟨5, 100, 2000, 2, false⟩ : ExecResult Nat).delays
      = [100, 200, 400, 800, 1600] ∧
    ∀ k, 6 ≤ k → backoffDelay ⟨5, 100, 2000, 2, false⟩ k = 2000 := by
  constructor
  · simp [RetryWrapper.execute, execGo, backoffDelay, rawServerError,
      ErrorHandler.handle, ErrorHandler.isRetryable]
    norm_num
  · intro k hk
    show min (2000 : ℚ) (100 * 2 ^ (k - 1)) = 2000
    have h5 : (2 : ℚ) ^ 5 ≤ 2 ^ (k - 1) := by
      apply pow_le_pow_right₀ (by norm_num)
      omega
    have hb : (2000 : ℚ) ≤ 100 * 2 ^ (k - 1) := by nlinarith
    exact min_eq_left hb

/-- Witness for C6: the delay after attempt 7 is already capped at 2000. -/
theorem C6_backoff_delay_sequence_witness :
    backoffDelay ⟨5, 100, 2000, 2, false⟩ 7 = 2000 :=
  C6_backoff_delay_sequence.2 7 (by norm_num)

/-- Claim C7: on the exponential-backoff branch of
`ErrorHandler.getRetryDelay`, the jittered delay for integer `baseDelay` and
any `Math.random()` value in [0, 1) lies between the deterministic value
min(baseDelay * 2^(attempt-1), 30000) and 10 percent above it. -/
theorem C7_jitter_bounds (baseDelay attempt : Nat) (rand : ℚ)
    (e : HandledError)
    (h1 : 1 ≤ attempt) (hr0 : 0 ≤ rand) (hr1 : rand < 1)
    (hnra : ∀ m ra, e ≠ .rateLimit m (some ra)) :
    min ((baseDelay : ℚ) * 2 ^ (attempt - 1)) 30000
      ≤ ErrorHandler.getRetryDelay e attempt (baseDelay : ℚ) rand ∧
    ErrorHandler.getRetryDelay e attempt (baseDelay : ℚ) rand
      ≤ min ((baseDelay : ℚ) * 2 ^ (attempt - 1)) 30000
        + min ((baseDelay : ℚ) * 2 ^ (attempt - 1)) 30000 / 10 := by
  have hcast : min ((baseDelay : ℚ) * 2 ^ (attempt - 1)) 30000
      = ((min (baseDelay * 2 ^ (attempt - 1)) 30000 : ℕ) : ℚ) := by
    push_cast
    ring_nf
  have key : ErrorHandler.getRetryDelay e attempt (baseDelay : ℚ) rand
      = ((⌊((min (baseDelay * 2 ^ (attempt - 1)) 30000 : ℕ) : ℚ)
          + rand * (1 / 10)
            * ((min (baseDelay * 2 ^ (attempt - 1)) 30000 : ℕ) : ℚ)⌋ : ℤ)
          : ℚ) := by
    cases e with
    | rateLimit m ra =>
        cases ra with
        | none => simp [ErrorHandler.getRetryDelay, ← hcast]
        | some x => exact absurd rfl (hnra m x)
    | base m c => simp [ErrorHandler.getRetryDelay, ← hcast]
    | configuration m => simp [ErrorHandler.getRetryDelay, ← hcast]
    | azureOpenAI m c => simp [ErrorHandler.getRetryDelay, ← hcast]
    | promptTemplate m => simp [ErrorHandler.getRetryDelay, ← hcast]
    | validation m => simp [ErrorHandler.getRetryDelay, ← hcast]
  obtain ⟨hlo, hhi⟩ := floor_jitter_bounds
    (min (baseDelay * 2 ^ (attempt - 1)) 30000) rand hr0 hr1
  constructor
  · rw [key, hcast]
    exact hlo
  · rw [key, hcast]
    exact hhi

/-- Witness for C7: baseDelay 1000, attempt 3, random draw one half: the
delay 4200 lies between 4000 and 4400. -/
theorem C7_jitter_bounds_witness :
    min (((1000 : Nat) : ℚ) * 2 ^ (3 - 1)) 30000
      ≤ ErrorHandler.getRetryDelay (.base "boom" 500) 3 ((1000 : Nat) : ℚ)
          (1 / 2) ∧
    ErrorHandler.getRetryDelay (.base "boom" 500) 3 ((1000 : Nat) : ℚ) (1 / 2)
      ≤ min (((1000 : Nat) : ℚ) * 2 ^ (3 - 1)) 30000
        + min (((1000 : Nat) : ℚ) * 2 ^ (3 - 1)) 30000 / 10 :=
  C7_jitter_bounds 1000 3 (1 / 2) (.base "boom" 500) (by norm_num)
    (by norm_num) (by norm_num) (fun m ra h => HandledError.noConfusion h)

/-- Claim C8: a failure on the first attempt that the classifier marks
non-retryable aborts immediately: exactly one invocation, no backoff delay,
a fatal outcome carrying the handled error with attempt count 1 — whatever
the retries option says. -/
theorem C8_fatal_single_attempt {α : Type} (op : Nat → Except RawError α)
    (o : RetryOptions) (raw : RawError)
    (hop : op 1 = .error raw)
    (hfatal : ErrorHandler.isRetryable (ErrorHandler.handle raw) = false) :
    RetryWrapper.execute true op o
      = ⟨.fatalFailure (ErrorHandler.handle raw) 1, 1, []⟩ := by
  show execGo op o 1 (o.retries + 1) = _
  exact execGo_fatal op o 1 o.retries raw hop hfatal

/-- Witness for C8: a network error on attempt 1 under a 6-attempt policy
still yields a single invocation with the fatal outcome and no delays. -/
theorem C8_fatal_single_attempt_witness :
    RetryWrapper.execute true
        (fun _ => (.error rawNetworkError : Except RawError Nat))
        ⟨5, 100, 2000, 2, true⟩
      = ⟨.fatalFailure (ErrorHandler.handle rawNetworkError) 1, 1, []⟩ :=
  C8_fatal_single_attempt (fun _ => .error rawNetworkError)
    ⟨5, 100, 2000, 2, true⟩ rawNetworkError rfl (by decide)

/-- Claim C9: with the configuration flag enableRetry false,
`RetryWrapper.execute` invokes the operation exactly once with no delays and
returns its value or propagates its raw error unclassified, regardless of
the retries option; and `executeWithCircuitBreaker` (here from the Closed
state) inherits the single-invocation behaviour since it delegates to
`execute`. -/
theorem C9_retry_disabled {α : Type} (op : Nat → Except RawError α)
    (o : RetryOptions) (threshold resetTimeout now : Nat)
    (br : CircuitBreaker) :
    (RetryWrapper.execute false op o).invocations = 1 ∧
    (RetryWrapper.execute false op o).delays = [] ∧
    (∀ v, op 1 = .ok v →
      (RetryWrapper.execute false op o).outcome = .success v) ∧
    (∀ raw, op 1 = .error raw →
      (RetryWrapper.execute false op o).outcome = .rawFailure raw) ∧
    (br.state = .closed →
      (RetryWrapper.executeWithCircuitBreaker threshold resetTimeout false
          op o br now).invocations = 1) := by
  refine ⟨?_, ?_, ?_, ?_, ?_⟩
  · cases h : op 1 <;> simp [RetryWrapper.execute, h]
  · cases h : op 1 <;> simp [RetryWrapper.execute, h]
  · intro v hv
    simp [RetryWrapper.execute, hv]
  · intro raw hraw
    simp [RetryWrapper.execute, hraw]
  · intro hc
    have hpass : breakerAdmit resetTimeout br now = (br, true) := by
      unfold breakerAdmit
      rw [hc]
    unfold RetryWrapper.executeWithCircuitBreaker
    rw [hpass]
    simp only [if_pos rfl]
    cases h : op 1 <;> simp [RetryWrapper.execute, h]

/-- Witness for C9: with retry disabled, an operation failing with a 500
response under an explicit retries option of 7 is invoked once and its raw
error is propagated unhandled. -/
theorem C9_retry_disabled_witness :
    (RetryWrapper.execute false
        (fun _ => (.error rawServerError : Except RawError Nat))
        ⟨7, 100, 2000, 2, true⟩).invocations = 1 ∧
    (RetryWrapper.execute false
        (fun _ => (.error rawServerError : Except RawError Nat))
        ⟨7, 100, 2000, 2, true⟩).outcome = .rawFailure rawServerError :=
  ⟨(C9_retry_disabled (fun _ => .error rawServerError) ⟨7, 100, 2000, 2, true⟩
      5 30000 0 CircuitBreaker.initial).1,
   (C9_retry_disabled (fun _ => .error rawServerError) ⟨7, 100, 2000, 2, true⟩
      5 30000 0 CircuitBreaker.initial).2.2.2.1 rawServerError rfl⟩

/-- Claim C10 counterexample: a call arriving while the state is HalfOpen
(the probe still in flight, state not yet settled) is NOT rejected: it is
admitted, invokes the operation (invocation count 1) and returns its result,
refuting the claim that all calls but the single probe receive the
circuit-open error. -/
theorem C10_counterexample :
    (RetryWrapper.executeWithCircuitBreaker 3 30000 true
        (fun _ => (.ok 0 : Except RawError Nat)) ⟨0, 1000, 30000, 2, false⟩
        ⟨3, some 0, .halfOpen⟩ 50).invocations = 1 ∧
    (RetryWrapper.executeWithCircuitBreaker 3 30000 true
        (fun _ => (.ok 0 : Except RawError Nat)) ⟨0, 1000, 30000, 2, false⟩
        ⟨3, some 0, .halfOpen⟩ 50).outcome = .result (.success 0) := by
  decide

/-- Claim C10 (amended): the breaker has no single-probe exclusivity: every
call that arrives while the state is HalfOpen is admitted unchanged,
delegates to `execute` (so the operation is invoked at least once) and
returns its outcome; only Open-state calls inside the cooldown fail fast. -/
theorem C10_halfopen_admits_every_call {α : Type}
    (threshold resetTimeout : Nat) (op : Nat → Except RawError α)
    (o : RetryOptions) (br : CircuitBreaker) (now : Nat)
    (hs : br.state = .halfOpen) :
    breakerAdmit resetTimeout br now = (br, true) ∧
    (RetryWrapper.executeWithCircuitBreaker threshold resetTimeout true
        op o br now).outcome
      = .result (RetryWrapper.execute true op o).outcome ∧
    1 ≤ (RetryWrapper.executeWithCircuitBreaker threshold resetTimeout true
        op o br now).invocations := by
  have hpass : breakerAdmit resetTimeout br now = (br, true) := by
    unfold breakerAdmit
    rw [hs]
  refine ⟨hpass, ?_, ?_⟩
  · unfold RetryWrapper.executeWithCircuitBreaker
    rw [hpass]
    simp
  · unfold RetryWrapper.executeWithCircuitBreaker
    rw [hpass]
    simp only [if_pos rfl]
    show 1 ≤ (execGo op o 1 (o.retries + 1)).invocations
    exact execGo_invocations_pos op o 1 o.retries

/-- Witness for C10 (amended): a second call at time 50 while the probe is
in flight is admitted and invokes the operation. -/
theorem C10_halfopen_admits_every_call_witness :
    breakerAdmit 30000 ⟨3, some 0, .halfOpen⟩ 50
      = (⟨3, some 0, .halfOpen⟩, true) ∧
    (RetryWrapper.executeWithCircuitBreaker 3 30000 true
        (fun _ => (.ok 0 : Except RawError Nat)) ⟨0, 1000, 30000, 2, false⟩
        ⟨3, some 0, .halfOpen⟩ 50).outcome
      = .result (RetryWrapper.execute true
          (fun _ => (.ok 0 : Except RawError Nat))
          ⟨0, 1000, 30000, 2, false⟩).outcome ∧
    1 ≤ (RetryWrapper.executeWithCircuitBreaker 3 30000 true
        (fun _ => (.ok 0 : Except RawError Nat)) ⟨0, 1000, 30000, 2, false⟩
        ⟨3, some 0, .halfOpen⟩ 50).invocations :=
  C10_halfopen_admits_every_call 3 30000
    (fun _ => (.ok 0 : Except RawError Nat)) ⟨0, 1000, 30000, 2, false⟩
    ⟨3, some 0, .halfOpen⟩ 50 rfl


end Wrapper
